import Mathlib

/-!
Verification development for the Vulkan learning renderer
(`VulkanApp.cpp` / `VulkanApp.h` / `VulkanUtils.h` / `Constants.h`).

The definitions below are shallow embeddings of the corresponding C++
functions.  Machine integers (`uint32_t`) are modelled as `Nat`; all the
embedded computations stay far below `2^32`, and where the `UINT32_MAX`
sentinel matters it is written out explicitly.  Vulkan driver calls are
modelled by oracle inputs (the values the driver would return) and by
explicit event traces.
-/

/-- Constant `Render_constants::g_maxFramesInFlight` (Constants.h). -/
def MAX_FRAMES_IN_FLIGHT : Nat := 2

/-- The `UINT32_MAX` sentinel used by `ChooseSwapExtent`. -/
def UINT32_MAX : Nat := 4294967295

/-- The subset of `VkResult` values distinguished by `DrawFrame`
(`VulkanApp.cpp:690-703`, `756-766`): `VK_SUCCESS`, `VK_SUBOPTIMAL_KHR`,
`VK_ERROR_OUT_OF_DATE_KHR`, and any other (failure) code. -/
inductive VkResult where
  | success
  | suboptimalKHR
  | errorOutOfDateKHR
  | otherFailure
deriving DecidableEq

/-- Model of `VkExtent2D` (width/height, `uint32_t` modelled as `Nat`). -/
structure VkExtent2D where
  width : Nat
  height : Nat
deriving DecidableEq

/-- The fields of `VkSurfaceCapabilitiesKHR` read by `ChooseSwapExtent`. -/
structure VkSurfaceCapabilitiesKHR where
  currentExtent : VkExtent2D
  minImageExtent : VkExtent2D
  maxImageExtent : VkExtent2D
deriving DecidableEq

/-- Model of `std::clamp(v, lo, hi)`: returns `lo` if `v < lo`, else `hi` if
`hi < v`, else `v`. -/
def stdClamp (v lo hi : Nat) : Nat :=
  if v < lo then lo else if hi < v then hi else v

/-- Model of `VulkanApp::ChooseSwapExtent` (`VulkanApp.cpp:1111-1135`).  The window
framebuffer size returned by `glfwGetFramebufferSize` is passed in as
`fbWidth`/`fbHeight`. -/
def chooseSwapExtent (capabilities : VkSurfaceCapabilitiesKHR)
    (fbWidth fbHeight : Nat) : VkExtent2D :=
  if capabilities.currentExtent.width ≠ UINT32_MAX then
    capabilities.currentExtent
  else
    { width := stdClamp fbWidth capabilities.minImageExtent.width
        capabilities.maxImageExtent.width
      height := stdClamp fbHeight capabilities.minImageExtent.height
        capabilities.maxImageExtent.height }

/-- The `VkPresentModeKHR` values mentioned in `ChooseSwapPresentMode`
(`VulkanApp.cpp:1077-1109`). -/
inductive VkPresentModeKHR where
  | immediateKHR
  | fifoKHR
  | fifoRelaxedKHR
  | mailboxKHR
deriving DecidableEq

/-- Model of `VulkanApp::ChooseSwapPresentMode` (`VulkanApp.cpp:1077-1109`): scan the
available modes and return the first equal to `VK_PRESENT_MODE_MAILBOX_KHR`;
if none is found return `VK_PRESENT_MODE_FIFO_KHR`. -/
def chooseSwapPresentMode : List VkPresentModeKHR → VkPresentModeKHR
  | [] => .fifoKHR
  | m :: rest => if m = .mailboxKHR then m else chooseSwapPresentMode rest

/-- The per-family facts `FindQueueFamilies` reads for one queue family:
whether `queueFlags` has `VK_QUEUE_GRAPHICS_BIT`, and the result of
`vkGetPhysicalDeviceSurfaceSupportKHR` for this family on the app's
surface. -/
structure QueueFamilyProps where
  graphicsBit : Bool
  presentSupport : Bool
deriving DecidableEq

/-- Model of `QueueFamilyIndices` (VulkanUtils.h:75-84). -/
structure QueueFamilyIndices where
  graphicsFamily : Option Nat := none
  presentFamily : Option Nat := none
deriving DecidableEq

/-- Model of `QueueFamilyIndices::IsComplete` (VulkanUtils.h:80-83). -/
def QueueFamilyIndices.IsComplete (q : QueueFamilyIndices) : Bool :=
  q.graphicsFamily.isSome && q.presentFamily.isSome

/-- The two recording statements in the loop body of
`VulkanApp::FindQueueFamilies` (`VulkanApp.cpp:1006-1015`): family `i`
overwrites `presentFamily` when it supports presentation and overwrites
`graphicsFamily` when it has the graphics bit. -/
def recordFamily (i : Nat) (indices : QueueFamilyIndices)
    (qf : QueueFamilyProps) : QueueFamilyIndices :=
  let ind1 := if qf.presentSupport then
      { indices with presentFamily := some i } else indices
  if qf.graphicsBit then { ind1 with graphicsFamily := some i } else ind1

/-- The loop of `VulkanApp::FindQueueFamilies`
(`VulkanApp.cpp:1000-1024`): `i` is the running family index, `indices`
the accumulator; each family is recorded by `recordFamily`, and the loop
breaks as soon as `IsComplete` holds (checked after the updates for the
current family). -/
def findQueueFamiliesAux (i : Nat) (indices : QueueFamilyIndices) :
    List QueueFamilyProps → QueueFamilyIndices
  | [] => indices
  | qf :: rest =>
    let ind2 := recordFamily i indices qf
    if ind2.IsComplete then ind2 else findQueueFamiliesAux (i + 1) ind2 rest

/-- Model of `VulkanApp::FindQueueFamilies` (`VulkanApp.cpp:989-1027`), as a function
of the device's queue-family properties. -/
def findQueueFamilies (qfs : List QueueFamilyProps) : QueueFamilyIndices :=
  findQueueFamiliesAux 0 {} qfs

/-- Model of `VkSurfaceFormatKHR` (format / colorSpace codes). -/
structure VkSurfaceFormatKHR where
  format : Nat
  colorSpace : Nat
deriving DecidableEq

/-- The device-side facts read by `RateDevice` / `DeviceSuitable` /
`DeviceExtensionSupport` / `QuerySwapChainSupport`
(`VulkanApp.cpp:919-983`, `1029-1058`): the queried properties, features,
queue families (with per-family surface support), the device's available
extension names, and the surface's formats and present modes. -/
structure PhysicalDevice where
  geometryShader : Bool
  isDiscreteGpu : Bool
  maxImageDimension2D : Nat
  queueFamilies : List QueueFamilyProps
  availableExtensions : List String
  surfaceFormats : List VkSurfaceFormatKHR
  surfacePresentModes : List VkPresentModeKHR
deriving DecidableEq

/-- Constant `Extension_constants::g_vDeviceExtensions` (Constants.h):
`VK_KHR_SWAPCHAIN_EXTENSION_NAME`. -/
def requiredDeviceExtensions : List String := ["VK_KHR_swapchain"]

/-- Model of `VulkanApp::DeviceExtensionSupport` (`VulkanApp.cpp:965-983`): the set
of required extensions minus the available ones is empty, i.e. every
required extension name appears among the available ones. -/
def deviceExtensionSupport (d : PhysicalDevice) : Bool :=
  requiredDeviceExtensions.all (fun e => d.availableExtensions.contains e)

/-- Model of `VulkanApp::DeviceSuitable` (`VulkanApp.cpp:949-963`): complete queue
families, supported extensions, and (queried only when extensions are
supported) non-empty surface formats and present modes. -/
def deviceSuitable (d : PhysicalDevice) : Bool :=
  let extensionsSupported := deviceExtensionSupport d
  let swapChainSupportAdequate :=
    if extensionsSupported then
      !d.surfaceFormats.isEmpty && !d.surfacePresentModes.isEmpty
    else false
  (findQueueFamilies d.queueFamilies).IsComplete
    && extensionsSupported && swapChainSupportAdequate

/-- Model of `VulkanApp::RateDevice` (`VulkanApp.cpp:919-947`): 0 if the device has
no geometry shader or is not suitable; otherwise 1000 (iff discrete GPU)
plus `maxImageDimension2D`. -/
def rateDevice (d : PhysicalDevice) : Nat :=
  if !d.geometryShader || !deviceSuitable d then 0
  else (if d.isDiscreteGpu then 1000 else 0) + d.maxImageDimension2D

/-- Model of `VulkanApp::PickPhysicalDevice` (`VulkanApp.cpp:187-215`).  An empty
device list fails the `deviceCount != 0` assertion; otherwise the devices
are inserted into a `std::multimap` keyed by score and `rbegin()` picks
the maximal score (the last-inserted device among equal maximal scores,
since `std::multimap` keeps insertion order within an equal-key range);
a maximal score of 0 fails the suitability assertion. -/
def pickPhysicalDevice (devices : List PhysicalDevice) :
    Except String PhysicalDevice :=
  match devices with
  | [] => .error "Failed to find GPU with Vulkan support"
  | d :: rest =>
    let best := rest.foldl
      (fun acc d2 => if rateDevice acc ≤ rateDevice d2 then d2 else acc) d
    if rateDevice best > 0 then .ok best
    else .error "Failed to find suitable GPU!"

/-- The concrete "device A" of the spec's scoring scenario: integrated GPU
with `maxImageDimension2D = 4096`, otherwise fully usable. -/
def integratedDevice4096 : PhysicalDevice :=
  { geometryShader := true
    isDiscreteGpu := false
    maxImageDimension2D := 4096
    queueFamilies := [⟨true, true⟩]
    availableExtensions := ["VK_KHR_swapchain"]
    surfaceFormats := [⟨0, 0⟩]
    surfacePresentModes := [.fifoKHR] }

/-- The concrete "device B" of the spec's scoring scenario: discrete GPU
with `maxImageDimension2D = 2048`, otherwise fully usable. -/
def discreteDevice2048 : PhysicalDevice :=
  { geometryShader := true
    isDiscreteGpu := true
    maxImageDimension2D := 2048
    queueFamilies := [⟨true, true⟩]
    availableExtensions := ["VK_KHR_swapchain"]
    surfaceFormats := [⟨0, 0⟩]
    surfacePresentModes := [.fifoKHR] }

/-! ## Frame scheduler (CPU-visible state of `DrawFrame`)

The scheduler-visible member state of `VulkanApp` that `DrawFrame`,
`CreateSyncObjects` and `RecreateSwapChain` read and write.  Driver
return values (`vkAcquireNextImageKHR`, `vkQueueSubmit`,
`vkQueuePresentKHR`) and the image index produced by acquisition are
supplied by a `DriverOracle`.  The `vkWaitForFences` /
`vkQueueWaitIdle` / `vkDeviceWaitIdle` calls only block; they change no
scheduler-visible member, so they appear here only as comments (their
blocking behaviour is modelled in the `DrawStep` relation below). -/

/-- Scheduler-visible members of `VulkanApp` (VulkanApp.h:125-152):
`m_currentFrame`, `m_vImagesInFlight` (each entry the owning frame
slot's fence, `none` for `VK_NULL_HANDLE`), the current chain's image
count (`m_vSwapChainImages.size()`, which equals the image-view,
framebuffer and command-buffer counts), and `m_framebufferResized`. -/
structure SchedState where
  currentFrame : Nat
  imagesInFlight : List (Option Nat)
  imageCount : Nat
  framebufferResized : Bool
deriving DecidableEq

/-- Driver-supplied values consumed by one `DrawFrame` iteration: the
`vkAcquireNextImageKHR` result and image index, the `vkQueueSubmit` and
`vkQueuePresentKHR` results, and the image count of the chain a
`RecreateSwapChain` in this iteration would build. -/
structure DriverOracle where
  acquireResult : VkResult
  imageIndex : Nat
  submitResult : VkResult
  presentResult : VkResult
  rebuiltImageCount : Nat
deriving DecidableEq

/-- How one `DrawFrame` iteration ends: normal return, a thrown
`std::runtime_error`, or undefined behaviour (an out-of-bounds
`std::vector` access). -/
inductive DrawOutcome where
  | normal
  | fatalError (msg : String)
  | undefinedBehavior
deriving DecidableEq

/-- Result of one `DrawFrame` iteration: the post-state plus
instrumentation counters for the number of `RecreateSwapChain`
invocations, `vkQueueSubmit` calls and `vkQueuePresentKHR` calls made
during the iteration. -/
structure DrawRes where
  state : SchedState
  rebuilds : Nat
  submits : Nat
  presents : Nat
  outcome : DrawOutcome
deriving DecidableEq

/-- Scheduler-visible effect of `VulkanApp::RecreateSwapChain`
(`VulkanApp.cpp:775-798`): the chain, image views, render pass,
pipeline, framebuffers and command buffers are torn down and rebuilt,
so the image count becomes whatever the fresh surface query yields
(`newCount`); `m_vImagesInFlight`, `m_currentFrame` and
`m_framebufferResized` are not touched by any call in its body. -/
def recreateSwapChainSched (s : SchedState) (newCount : Nat) : SchedState :=
  { s with imageCount := newCount }

/-- Scheduler-visible effect of `VulkanApp::CreateSyncObjects`
(`VulkanApp.cpp:653-679`): `m_vImagesInFlight.resize(n, VK_NULL_HANDLE)`
with `n = m_vSwapChainImageViews.size()` applied to the default-empty
vector, i.e. the tracker becomes `n` null entries.  Called exactly once,
from `InitVulkan`; it is not part of `RecreateSwapChain`. -/
def createSyncObjectsSched (s : SchedState) : SchedState :=
  { s with imagesInFlight := List.replicate s.imageCount none }

/-- Scheduler state right after `InitVulkan` for an initial chain of
`n` images: `m_currentFrame = 0`, `m_framebufferResized = false`
(constructor, VulkanApp.h:42-43), and the in-flight tracker sized by
`CreateSyncObjects`. -/
def initialSchedState (n : Nat) : SchedState :=
  createSyncObjectsSched
    { currentFrame := 0, imagesInFlight := [], imageCount := n
      framebufferResized := false }

/-- Model of `VulkanApp::DrawFrame` (`VulkanApp.cpp:681-771`), one
iteration, instrumented with rebuild/submit/present counters.

* line 684: `vkWaitForFences` on this slot's fence — blocking only;
* line 690: acquire; lines 693-697: on `VK_ERROR_OUT_OF_DATE_KHR`
  rebuild the chain and return early (slot index unchanged);
* lines 700-703: any result other than success/suboptimal throws;
* line 706: `m_vImagesInFlight[imageIndex]` — undefined behaviour when
  `imageIndex` is not below the tracker's size; lines 706-709 wait on
  the recorded fence (blocking only); line 712 records this slot's
  fence for the image;
* lines 730-734: reset this slot's fence, submit (throw on failure);
* lines 749-753: second wait on the recorded fence (blocking only);
* line 756: present; lines 757-762: on out-of-date / suboptimal /
  pending resize flag, clear the flag and rebuild; lines 763-766: any
  other non-success result throws;
* line 768: `vkQueueWaitIdle` — blocking only; line 770: advance
  `m_currentFrame` modulo `MAX_FRAMES_IN_FLIGHT`. -/
def drawFrame (s : SchedState) (o : DriverOracle) : DrawRes :=
  if o.acquireResult = .errorOutOfDateKHR then
    { state := recreateSwapChainSched s o.rebuiltImageCount
      rebuilds := 1, submits := 0, presents := 0, outcome := .normal }
  else if o.acquireResult ≠ .success ∧ o.acquireResult ≠ .suboptimalKHR then
    { state := s, rebuilds := 0, submits := 0, presents := 0
      outcome := .fatalError "Failed to acquire swap chain image!" }
  else if o.imageIndex < s.imagesInFlight.length then
    let s1 := { s with imagesInFlight :=
      s.imagesInFlight.set o.imageIndex (some s.currentFrame) }
    if o.submitResult ≠ .success then
      { state := s1, rebuilds := 0, submits := 1, presents := 0
        outcome := .fatalError "Failed to submit draw command buffer!" }
    else if o.presentResult = .errorOutOfDateKHR
        ∨ o.presentResult = .suboptimalKHR
        ∨ s1.framebufferResized then
      { state :=
          { recreateSwapChainSched { s1 with framebufferResized := false }
              o.rebuiltImageCount with
            currentFrame := (s.currentFrame + 1) % MAX_FRAMES_IN_FLIGHT }
        rebuilds := 1, submits := 1, presents := 1, outcome := .normal }
    else if o.presentResult ≠ .success then
      { state := s1, rebuilds := 0, submits := 1, presents := 1
        outcome := .fatalError "Failed to present swap chain image!" }
    else
      { state := { s1 with
          currentFrame := (s.currentFrame + 1) % MAX_FRAMES_IN_FLIGHT }
        rebuilds := 0, submits := 1, presents := 1, outcome := .normal }
  else
    { state := s, rebuilds := 0, submits := 0, presents := 0
      outcome := .undefinedBehavior }

/-! ## Event traces of `RecreateSwapChain` / `CleanupSwapChain` -/

/-- The Vulkan/GLFW calls made by `RecreateSwapChain` and
`CleanupSwapChain`, in the order the source issues them.  The previous
presentation chain (the value of `m_currentSwapChain` on entry to the
rebuild) is destroyed by the `vkDestroySwapchainKHR(m_currentSwapChain)`
call, `destroySwapchainCurrent`; `destroySwapchainOld` is the
`vkDestroySwapchainKHR(m_oldSwapChain)` call; `createSwapchain` is the
`vkCreateSwapchainKHR` call that creates the replacement chain. -/
inductive SwapEvent where
  | getFramebufferSize
  | waitEvents
  | deviceWaitIdle
  | destroyFramebuffers
  | freeCommandBuffers
  | destroyPipeline
  | destroyPipelineLayout
  | destroyRenderPass
  | destroyImageViews
  | destroySwapchainOld
  | destroySwapchainCurrent
  | createSwapchain
  | createImageViews
  | createRenderPass
  | createGraphicsPipeline
  | createFramebuffers
  | createCommandBuffers
deriving DecidableEq

/-- Call sequence of `VulkanApp::CleanupSwapChain`
(`VulkanApp.cpp:800-826`): framebuffers, command buffers, pipeline,
pipeline layout, render pass, image views, then the two
`vkDestroySwapchainKHR` calls (old chain at line 824, current chain at
line 825). -/
def cleanupSwapChainEvents : List SwapEvent :=
  [.destroyFramebuffers, .freeCommandBuffers, .destroyPipeline,
   .destroyPipelineLayout, .destroyRenderPass, .destroyImageViews,
   .destroySwapchainOld, .destroySwapchainCurrent]

/-- Call sequence of the construction half of `RecreateSwapChain`
(`VulkanApp.cpp:792-797`): `CreateSwapChain` (whose first driver call is
`vkCreateSwapchainKHR`), then image views, render pass, pipeline,
framebuffers, command buffers. -/
def chainBuildEvents : List SwapEvent :=
  [.createSwapchain, .createImageViews, .createRenderPass,
   .createGraphicsPipeline, .createFramebuffers, .createCommandBuffers]

/-- The minimised-window wait loop of `RecreateSwapChain`
(`VulkanApp.cpp:780-784`): while the current size is zero in either
dimension, query the framebuffer size again (consuming the next
observation) and call `glfwWaitEvents`, then re-check.  Returns the
events of the loop, or `none` when the observations run out while the
window still has zero area (the loop would block forever). -/
def minimiseWaitLoop : Nat × Nat → List (Nat × Nat) → Option (List SwapEvent)
  | (w, h), obs =>
    if w = 0 ∨ h = 0 then
      match obs with
      | [] => none
      | o :: rest =>
        (minimiseWaitLoop o rest).map
          (fun tr => .getFramebufferSize :: .waitEvents :: tr)
    else some []

/-- Call trace of `VulkanApp::RecreateSwapChain` (`VulkanApp.cpp:775-798`)
as a function of the successive `glfwGetFramebufferSize` observations:
the initial size query (line 779), the minimised-window wait loop
(lines 780-784), then `vkDeviceWaitIdle` (line 789), the
`CleanupSwapChain` teardown (line 790) and the rebuild (lines 792-797).
`none` when the observation list is exhausted while the window still
has zero area in some dimension. -/
def recreateSwapChainEvents (obs : List (Nat × Nat)) :
    Option (List SwapEvent) :=
  match obs with
  | [] => none
  | o :: rest =>
    (minimiseWaitLoop o rest).map
      (fun polls => .getFramebufferSize :: polls
        ++ [.deviceWaitIdle] ++ cleanupSwapChainEvents ++ chainBuildEvents)

/-- Whether a call constructs part of the presentation chain. -/
def isChainConstruction : SwapEvent → Bool
  | .createSwapchain | .createImageViews | .createRenderPass
  | .createGraphicsPipeline | .createFramebuffers
  | .createCommandBuffers => true
  | _ => false

/-- Whether a call tears down part of the presentation chain. -/
def isChainTeardown : SwapEvent → Bool
  | .destroyFramebuffers | .freeCommandBuffers | .destroyPipeline
  | .destroyPipelineLayout | .destroyRenderPass | .destroyImageViews
  | .destroySwapchainOld | .destroySwapchainCurrent => true
  | _ => false

/-- Event `a` occurs strictly before event `b` in trace `tr`. -/
def OccursBefore (a b : SwapEvent) (tr : List SwapEvent) : Prop :=
  ∃ l1 l2 l3, tr = l1 ++ a :: l2 ++ b :: l3

/-! ## Fence/in-flight state machine (for the in-flight bound)

A small-step system refining one `DrawFrame` iteration into its blocking
points, so that "any instant" in the claimed in-flight bound is visible
between steps.  GPU completion of submitted work is a separate
nondeterministic step; a `vkWaitForFences` call is modelled as a
precondition that the awaited fence is already signaled (the signal being
a prior GPU-completion step).  `vkQueueWaitIdle` (line 768) and the
`vkDeviceWaitIdle` inside `RecreateSwapChain` only block — omitting their
preconditions merely admits more interleavings, which is sound for
proving a safety bound. -/

/-- Control position inside the `DrawFrame` body: before the
wait/acquire (`top`), after a successful acquire but before the
submission (`readyToSubmit`), after the submission but before the
present (`submitted`), or after a thrown error (`halted`). -/
inductive FramePhase where
  | top
  | readyToSubmit (imageIndex : Nat)
  | submitted (imageIndex : Nat)
  | halted
deriving DecidableEq

/-- State of the frame scheduler together with the fences: for each
frame slot `f < MAX_FRAMES_IN_FLIGHT`, whether `m_vFences[f]` is
signaled, and (ghost instrumentation) how many submitted GPU workloads
that will signal fence `f` have not yet completed. -/
structure FlightState where
  sched : SchedState
  phase : FramePhase
  fenceSignaled : Nat → Bool
  outstandingWork : Nat → Nat

/-- State after `InitVulkan` with an `n`-image chain: at the top of the
loop, all fences created signaled (`VK_FENCE_CREATE_SIGNALED_BIT`,
`VulkanApp.cpp:667`), no GPU work outstanding. -/
def initialFlightState (n : Nat) : FlightState :=
  { sched := initialSchedState n
    phase := .top
    fenceSignaled := fun _ => true
    outstandingWork := fun _ => 0 }

/-- Small-step transitions: nondeterministic GPU completion, plus the
phases of `DrawFrame` (`VulkanApp.cpp:681-771`) cut at its blocking
waits.  Each `vkWaitForFences` appears as a `t = true` hypothesis on
the awaited fence. -/
inductive DrawStep : FlightState → FlightState → Prop
  /-- The GPU finishes one submitted workload for slot `f` and signals
  `m_vFences[f]`. -/
  | gpuComplete (s : FlightState) (f : Nat) (hf : f < MAX_FRAMES_IN_FLIGHT)
      (hw : 0 < s.outstandingWork f) :
      DrawStep s { s with
        fenceSignaled := fun g => if g = f then true else s.fenceSignaled g
        outstandingWork := fun g =>
          if g = f then s.outstandingWork g - 1 else s.outstandingWork g }
  /-- Lines 684-697: wait on this slot's fence, acquire returns
  `VK_ERROR_OUT_OF_DATE_KHR`, rebuild the chain, early return (the slot
  index and the phase are unchanged). -/
  | acquireOutOfDate (s : FlightState) (newCount : Nat)
      (hphase : s.phase = .top)
      (hwait : s.fenceSignaled s.sched.currentFrame = true) :
      DrawStep s { s with sched := recreateSwapChainSched s.sched newCount }
  /-- Lines 684-703: wait on this slot's fence, acquire fails with a
  result other than success/suboptimal/out-of-date, throw. -/
  | acquireFatal (s : FlightState) (r : VkResult)
      (hphase : s.phase = .top)
      (hwait : s.fenceSignaled s.sched.currentFrame = true)
      (hr : r ≠ .success ∧ r ≠ .suboptimalKHR ∧ r ≠ .errorOutOfDateKHR) :
      DrawStep s { s with phase := .halted }
  /-- Lines 684-703: wait on this slot's fence, acquire succeeds
  (success or suboptimal) yielding image `idx`. -/
  | acquireOk (s : FlightState) (idx : Nat)
      (hphase : s.phase = .top)
      (hwait : s.fenceSignaled s.sched.currentFrame = true) :
      DrawStep s { s with phase := .readyToSubmit idx }
  /-- Lines 706-734: wait on the fence recorded for the acquired image
  (if any), record this slot's fence for it, reset this slot's fence,
  submit successfully (the submission will re-signal the fence). -/
  | submitOk (s : FlightState) (idx : Nat)
      (hphase : s.phase = .readyToSubmit idx)
      (hwait : ∀ g, s.sched.imagesInFlight.getD idx none = some g →
        s.fenceSignaled g = true) :
      DrawStep s { s with
        sched := { s.sched with imagesInFlight :=
          s.sched.imagesInFlight.set idx (some s.sched.currentFrame) }
        fenceSignaled := fun g =>
          if g = s.sched.currentFrame then false else s.fenceSignaled g
        outstandingWork := fun g =>
          if g = s.sched.currentFrame then s.outstandingWork g + 1
          else s.outstandingWork g
        phase := .submitted idx }
  /-- Lines 706-734 with `vkQueueSubmit` failing: the fence was reset
  (line 730) but no workload was submitted, then the throw. -/
  | submitFatal (s : FlightState) (idx : Nat)
      (hphase : s.phase = .readyToSubmit idx)
      (hwait : ∀ g, s.sched.imagesInFlight.getD idx none = some g →
        s.fenceSignaled g = true) :
      DrawStep s { s with
        sched := { s.sched with imagesInFlight :=
          s.sched.imagesInFlight.set idx (some s.sched.currentFrame) }
        fenceSignaled := fun g =>
          if g = s.sched.currentFrame then false else s.fenceSignaled g
        phase := .halted }
  /-- Lines 749-770: second wait on the fence recorded for the image,
  present reporting out-of-date/suboptimal (or the resize flag is set):
  clear the flag, rebuild, advance the slot index. -/
  | presentRebuild (s : FlightState) (idx : Nat) (newCount : Nat)
      (hphase : s.phase = .submitted idx)
      (hwait : ∀ g, s.sched.imagesInFlight.getD idx none = some g →
        s.fenceSignaled g = true) :
      DrawStep s { s with
        sched := { recreateSwapChainSched
            { s.sched with framebufferResized := false } newCount with
          currentFrame := (s.sched.currentFrame + 1) % MAX_FRAMES_IN_FLIGHT }
        phase := .top }
  /-- Lines 749-766: second wait, present fails with a result other
  than success/out-of-date/suboptimal (resize flag clear), throw. -/
  | presentFatal (s : FlightState) (idx : Nat)
      (hphase : s.phase = .submitted idx)
      (hwait : ∀ g, s.sched.imagesInFlight.getD idx none = some g →
        s.fenceSignaled g = true) :
      DrawStep s { s with phase := .halted }
  /-- Lines 749-770: second wait, present succeeds, advance the slot
  index. -/
  | presentOk (s : FlightState) (idx : Nat)
      (hphase : s.phase = .submitted idx)
      (hwait : ∀ g, s.sched.imagesInFlight.getD idx none = some g →
        s.fenceSignaled g = true) :
      DrawStep s { s with
        sched := { s.sched with currentFrame :=
          (s.sched.currentFrame + 1) % MAX_FRAMES_IN_FLIGHT }
        phase := .top }

/-- States reachable from some initial state by `DrawStep` steps. -/
inductive ReachableFlight : FlightState → Prop
  | init (n : Nat) : ReachableFlight (initialFlightState n)
  | step {s t : FlightState} :
      ReachableFlight s → DrawStep s t → ReachableFlight t

/-- Number of submitted-but-not-completed GPU workloads summed over the
`MAX_FRAMES_IN_FLIGHT` frame slots. -/
def totalOutstanding (s : FlightState) : Nat :=
  ∑ f ∈ Finset.range MAX_FRAMES_IN_FLIGHT, s.outstandingWork f

/-- Inductive invariant of the fence scheme: each slot's fence has at
most one uncompleted workload attached; a signaled fence has none (it is
re-signaled only by completion of the single workload submitted after
its reset); and between a successful acquire and the submission this
slot's fence is signaled (the wait at `VulkanApp.cpp:684` completed and
the reset at line 730 has not happened yet). -/
def FlightInv (s : FlightState) : Prop :=
  (∀ f, s.outstandingWork f ≤ 1)
  ∧ (∀ f, s.fenceSignaled f = true → s.outstandingWork f = 0)
  ∧ (∀ idx, s.phase = .readyToSubmit idx →
      s.fenceSignaled s.sched.currentFrame = true)

/-! ## Theorems -/

theorem stdClamp_eq_max_min (v lo hi : Nat) (h : lo ≤ hi) :
    stdClamp v lo hi = max lo (min v hi) := by
  unfold stdClamp
  split
  · omega
  split <;> omega

/-- C3 (counterexample to the claim as stated): at the spec's literal
test input — sentinel current extent, `min = (1,1)`, `max = (4096,4096)`,
framebuffer size `(7000,5)` — `ChooseSwapExtent` returns `(4096, 5)`,
not the claimed `(4096, 1)`: clamping 5 into `[1, 4096]` leaves 5. -/
theorem c3_counterexample :
    chooseSwapExtent ⟨⟨UINT32_MAX, UINT32_MAX⟩, ⟨1, 1⟩, ⟨4096, 4096⟩⟩
        7000 5 ≠ ⟨4096, 1⟩
    ∧ chooseSwapExtent ⟨⟨UINT32_MAX, UINT32_MAX⟩, ⟨1, 1⟩, ⟨4096, 4096⟩⟩
        7000 5 = ⟨4096, 5⟩ := by
  decide

/-- C3 (amended): with the `currentExtent.width = UINT32_MAX` sentinel,
`ChooseSwapExtent` returns the window's framebuffer size clamped
component-wise into `[minImageExtent, maxImageExtent]`; with a concrete
`currentExtent` it returns it unchanged.  For `min = (1,1)`,
`max = (4096,4096)` and framebuffer size `(7000,5)` under the sentinel,
the result is `(4096, 5)`. -/
theorem c3_chooseSwapExtent_clamps (caps : VkSurfaceCapabilitiesKHR)
    (fbW fbH : Nat)
    (hw : caps.minImageExtent.width ≤ caps.maxImageExtent.width)
    (hh : caps.minImageExtent.height ≤ caps.maxImageExtent.height) :
    (caps.currentExtent.width = UINT32_MAX →
      chooseSwapExtent caps fbW fbH =
        { width := max caps.minImageExtent.width
            (min fbW caps.maxImageExtent.width)
          height := max caps.minImageExtent.height
            (min fbH caps.maxImageExtent.height) })
    ∧ (caps.currentExtent.width ≠ UINT32_MAX →
      chooseSwapExtent caps fbW fbH = caps.currentExtent)
    ∧ chooseSwapExtent ⟨⟨UINT32_MAX, UINT32_MAX⟩, ⟨1, 1⟩, ⟨4096, 4096⟩⟩
        7000 5 = ⟨4096, 5⟩ := by
  refine ⟨fun hs => ?_, fun hs => ?_, by decide⟩
  · unfold chooseSwapExtent
    rw [if_neg (fun hne => hne hs),
      stdClamp_eq_max_min fbW _ _ hw, stdClamp_eq_max_min fbH _ _ hh]
  · unfold chooseSwapExtent
    rw [if_pos hs]

/-- Witness for C3's amended theorem at a concrete capability struct. -/
theorem c3_witness :
    chooseSwapExtent ⟨⟨100, 200⟩, ⟨1, 1⟩, ⟨4096, 4096⟩⟩ 50 60
      = ⟨100, 200⟩ :=
  (c3_chooseSwapExtent_clamps ⟨⟨100, 200⟩, ⟨1, 1⟩, ⟨4096, 4096⟩⟩ 50 60
    (by decide) (by decide)).2.1 (by decide)

theorem chooseSwapPresentMode_of_mem (ms : List VkPresentModeKHR)
    (h : VkPresentModeKHR.mailboxKHR ∈ ms) :
    chooseSwapPresentMode ms = .mailboxKHR := by
  induction ms with
  | nil => cases h
  | cons m rest ih =>
    by_cases hm : m = VkPresentModeKHR.mailboxKHR
    · simp [chooseSwapPresentMode, hm]
    · have hrest : VkPresentModeKHR.mailboxKHR ∈ rest := by
        rcases List.mem_cons.mp h with h1 | h1
        · exact absurd h1.symm hm
        · exact h1
      simp [chooseSwapPresentMode, hm, ih hrest]

theorem chooseSwapPresentMode_of_not_mem (ms : List VkPresentModeKHR)
    (h : VkPresentModeKHR.mailboxKHR ∉ ms) :
    chooseSwapPresentMode ms = .fifoKHR := by
  induction ms with
  | nil => rfl
  | cons m rest ih =>
    have hm : m ≠ VkPresentModeKHR.mailboxKHR :=
      fun he => h (he ▸ List.mem_cons_self m rest)
    have hrest : VkPresentModeKHR.mailboxKHR ∉ rest :=
      fun hr => h (List.mem_cons_of_mem m hr)
    simp [chooseSwapPresentMode, hm, ih hrest]

/-- C9: for a non-empty list of available present modes,
`ChooseSwapPresentMode` returns the low-latency `VK_PRESENT_MODE_MAILBOX_KHR`
when the list contains it, and `VK_PRESENT_MODE_FIFO_KHR` otherwise. -/
theorem c9_choose_swap_present_mode (ms : List VkPresentModeKHR)
    (_hne : ms ≠ []) :
    (VkPresentModeKHR.mailboxKHR ∈ ms →
      chooseSwapPresentMode ms = .mailboxKHR)
    ∧ (VkPresentModeKHR.mailboxKHR ∉ ms →
      chooseSwapPresentMode ms = .fifoKHR) :=
  ⟨chooseSwapPresentMode_of_mem ms, chooseSwapPresentMode_of_not_mem ms⟩

/-- Witness for C9 on concrete mode lists. -/
theorem c9_witness :
    chooseSwapPresentMode [.immediateKHR, .mailboxKHR, .fifoKHR]
      = .mailboxKHR
    ∧ chooseSwapPresentMode [.immediateKHR, .fifoKHR] = .fifoKHR :=
  ⟨(c9_choose_swap_present_mode [.immediateKHR, .mailboxKHR, .fifoKHR]
      (by decide)).1 (by decide),
   (c9_choose_swap_present_mode [.immediateKHR, .fifoKHR]
      (by decide)).2 (by decide)⟩

/-- C2: when acquisition reports `VK_ERROR_OUT_OF_DATE_KHR`, the
`DrawFrame` iteration aborts early: exactly one `RecreateSwapChain`, no
submit, no present, and `m_currentFrame` is left unchanged so the next
call resumes at the same slot index. -/
theorem c2_acquire_out_of_date_aborts (s : SchedState) (o : DriverOracle)
    (h : o.acquireResult = .errorOutOfDateKHR) :
    drawFrame s o =
      { state := recreateSwapChainSched s o.rebuiltImageCount
        rebuilds := 1, submits := 0, presents := 0, outcome := .normal }
    ∧ (drawFrame s o).state.currentFrame = s.currentFrame := by
  have h1 : drawFrame s o =
      { state := recreateSwapChainSched s o.rebuiltImageCount
        rebuilds := 1, submits := 0, presents := 0
        outcome := .normal } := by
    unfold drawFrame
    rw [if_pos h]
  exact ⟨h1, by rw [h1]; rfl⟩

/-- Witness for C2 at a concrete state and oracle. -/
theorem c2_witness :
    drawFrame (initialSchedState 3)
        ⟨.errorOutOfDateKHR, 0, .success, .success, 4⟩
      = { state := recreateSwapChainSched (initialSchedState 3) 4
          rebuilds := 1, submits := 0, presents := 0, outcome := .normal }
    ∧ (drawFrame (initialSchedState 3)
        ⟨.errorOutOfDateKHR, 0, .success, .success, 4⟩).state.currentFrame
      = (initialSchedState 3).currentFrame :=
  c2_acquire_out_of_date_aborts (initialSchedState 3)
    ⟨.errorOutOfDateKHR, 0, .success, .success, 4⟩ rfl

/-- C10: the in-flight tracker `m_vImagesInFlight` is sized to the chain
image count only once, in `CreateSyncObjects`; `RecreateSwapChain` leaves
it untouched, so after a rebuild to a larger image count the tracker is
shorter than the chain, and a `DrawFrame` that acquires an image index at
or beyond the original count performs an out-of-bounds vector access. -/
theorem c10_tracker_out_of_bounds (n0 n1 i : Nat)
    (h01 : n0 < n1) (hi0 : n0 ≤ i) (_hi1 : i < n1) :
    (recreateSwapChainSched (initialSchedState n0) n1).imagesInFlight.length
      = n0
    ∧ (recreateSwapChainSched (initialSchedState n0) n1).imagesInFlight.length
      ≠ (recreateSwapChainSched (initialSchedState n0) n1).imageCount
    ∧ (drawFrame (recreateSwapChainSched (initialSchedState n0) n1)
        ⟨.success, i, .success, .success, n1⟩).outcome
      = .undefinedBehavior := by
  have hlen : (recreateSwapChainSched (initialSchedState n0)
      n1).imagesInFlight.length = n0 := by
    simp [recreateSwapChainSched, initialSchedState, createSyncObjectsSched]
  refine ⟨hlen, ?_, ?_⟩
  · have hcnt : (recreateSwapChainSched (initialSchedState n0)
        n1).imageCount = n1 := rfl
    omega
  · have hcond : ¬ (i < (recreateSwapChainSched (initialSchedState n0)
        n1).imagesInFlight.length) := by
      rw [hlen]; omega
    unfold drawFrame
    rw [if_neg (by simp), if_neg (by simp), if_neg hcond]

/-- Witness for C10: initial chain of 2 images, rebuilt to 3, acquired
index 2. -/
theorem c10_witness :
    (recreateSwapChainSched (initialSchedState 2) 3).imagesInFlight.length
      = 2
    ∧ (recreateSwapChainSched (initialSchedState 2) 3).imagesInFlight.length
      ≠ (recreateSwapChainSched (initialSchedState 2) 3).imageCount
    ∧ (drawFrame (recreateSwapChainSched (initialSchedState 2) 3)
        ⟨.success, 2, .success, .success, 3⟩).outcome
      = .undefinedBehavior :=
  c10_tracker_out_of_bounds 2 3 2 (by decide) (by decide) (by decide)

/-- C7: in every `DrawFrame` iteration that reaches the present step
(successful/suboptimal acquire, in-bounds image index, successful
submit), the present call is issued exactly once; if it reports
out-of-date or suboptimal, or the asynchronous resize flag is set, the
flag is cleared and exactly one rebuild is triggered (no error); any
other non-success present result throws the fatal present error (no
rebuild); and on plain success with the flag clear, neither rebuild nor
error occurs. -/
theorem c7_present_error_handling (s : SchedState) (o : DriverOracle)
    (hacq : o.acquireResult = .success ∨ o.acquireResult = .suboptimalKHR)
    (hidx : o.imageIndex < s.imagesInFlight.length)
    (hsub : o.submitResult = .success) :
    (drawFrame s o).presents = 1
    ∧ ((o.presentResult = .errorOutOfDateKHR
        ∨ o.presentResult = .suboptimalKHR
        ∨ s.framebufferResized = true) →
      (drawFrame s o).rebuilds = 1
      ∧ (drawFrame s o).state.framebufferResized = false
      ∧ (drawFrame s o).outcome = .normal)
    ∧ ((o.presentResult ≠ .errorOutOfDateKHR
        ∧ o.presentResult ≠ .suboptimalKHR
        ∧ s.framebufferResized = false
        ∧ o.presentResult ≠ .success) →
      (drawFrame s o).outcome
          = .fatalError "Failed to present swap chain image!"
      ∧ (drawFrame s o).rebuilds = 0)
    ∧ ((o.presentResult = .success ∧ s.framebufferResized = false) →
      (drawFrame s o).rebuilds = 0
      ∧ (drawFrame s o).outcome = .normal
      ∧ (drawFrame s o).state.framebufferResized = false) := by
  have hne1 : ¬ (o.acquireResult = .errorOutOfDateKHR) := by
    rcases hacq with h | h <;> simp [h]
  have hne2 : ¬ (o.acquireResult ≠ .success
      ∧ o.acquireResult ≠ .suboptimalKHR) := by
    rcases hacq with h | h <;> simp [h]
  unfold drawFrame
  rw [if_neg hne1, if_neg hne2, if_pos hidx]
  dsimp only
  rw [if_neg (by simp [hsub])]
  refine ⟨?_, ?_, ?_, ?_⟩
  · split
    · rfl
    · split <;> rfl
  · intro hcond
    rw [if_pos (by simpa using hcond)]
    exact ⟨rfl, rfl, rfl⟩
  · rintro ⟨hp1, hp2, hp3, hp4⟩
    rw [if_neg (by simp [hp1, hp2, hp3]), if_pos hp4]
    exact ⟨rfl, rfl⟩
  · rintro ⟨hps, hpr⟩
    rw [if_neg (by simp [hps, hpr]), if_neg (by simp [hps])]
    exact ⟨rfl, rfl, by simp [hpr]⟩

/-- Witness for C7 at a concrete state and oracle (suboptimal present,
so the rebuild branch is taken). -/
theorem c7_witness :
    (drawFrame (initialSchedState 3)
        ⟨.success, 1, .success, .suboptimalKHR, 3⟩).presents = 1
    ∧ (((⟨.success, 1, .success, .suboptimalKHR, 3⟩ : DriverOracle).presentResult
          = .errorOutOfDateKHR
        ∨ (⟨.success, 1, .success, .suboptimalKHR, 3⟩ : DriverOracle).presentResult
          = .suboptimalKHR
        ∨ (initialSchedState 3).framebufferResized = true) →
      (drawFrame (initialSchedState 3)
          ⟨.success, 1, .success, .suboptimalKHR, 3⟩).rebuilds = 1
      ∧ (drawFrame (initialSchedState 3)
          ⟨.success, 1, .success, .suboptimalKHR, 3⟩).state.framebufferResized
        = false
      ∧ (drawFrame (initialSchedState 3)
          ⟨.success, 1, .success, .suboptimalKHR, 3⟩).outcome = .normal) := by
  have h := c7_present_error_handling (initialSchedState 3)
    ⟨.success, 1, .success, .suboptimalKHR, 3⟩ (Or.inl rfl)
    (by decide) rfl
  exact ⟨h.1, h.2.1⟩

/-- C4 (counterexample to the claim as stated): in the rebuild call
trace, the destruction of the previous chain
(`vkDestroySwapchainKHR(m_currentSwapChain)`, issued from
`CleanupSwapChain`) occurs strictly BEFORE the creation of the
replacement chain (`vkCreateSwapchainKHR`), the opposite of the claimed
order. -/
theorem c4_counterexample :
    ((recreateSwapChainEvents [(800, 600)]).getD []).indexOf
        SwapEvent.destroySwapchainCurrent
      < ((recreateSwapChainEvents [(800, 600)]).getD []).indexOf
        SwapEvent.createSwapchain
    ∧ SwapEvent.destroySwapchainCurrent
        ∈ (recreateSwapChainEvents [(800, 600)]).getD []
    ∧ SwapEvent.createSwapchain
        ∈ (recreateSwapChainEvents [(800, 600)]).getD [] := by
  decide

/-- C4 (amended): in every completed `RecreateSwapChain` call trace, the
previous swapchain is destroyed BEFORE the new swapchain is created, and
that destruction is preceded by a full `vkDeviceWaitIdle` (the code
synchronizes and tears down first, then builds the replacement; the
deferred-destruction handoff through `oldSwapchain` is not what the code
does). -/
theorem c4_destroy_before_create (obs : List (Nat × Nat))
    (tr : List SwapEvent) (h : recreateSwapChainEvents obs = some tr) :
    OccursBefore .deviceWaitIdle .destroySwapchainCurrent tr
    ∧ OccursBefore .destroySwapchainCurrent .createSwapchain tr := by
  rcases obs with _ | ⟨o, rest⟩
  · simp [recreateSwapChainEvents] at h
  · simp only [recreateSwapChainEvents] at h
    rcases hml : minimiseWaitLoop o rest with _ | polls
    · rw [hml] at h; cases h
    · rw [hml] at h
      have htr : tr = .getFramebufferSize :: polls
          ++ [.deviceWaitIdle] ++ cleanupSwapChainEvents
          ++ chainBuildEvents := (Option.some.inj h).symm
    
      refine ⟨⟨.getFramebufferSize :: polls,
        [.destroyFramebuffers, .freeCommandBuffers, .destroyPipeline,
         .destroyPipelineLayout, .destroyRenderPass, .destroyImageViews,
         .destroySwapchainOld],
        chainBuildEvents, ?_⟩,
        ⟨.getFramebufferSize :: polls
          ++ [.deviceWaitIdle, .destroyFramebuffers, .freeCommandBuffers,
              .destroyPipeline, .destroyPipelineLayout, .destroyRenderPass,
              .destroyImageViews, .destroySwapchainOld],
        [],
        [.createImageViews, .createRenderPass, .createGraphicsPipeline,
         .createFramebuffers, .createCommandBuffers], ?_⟩⟩
      · rw [htr]; simp [cleanupSwapChainEvents, chainBuildEvents]
      · rw [htr]; simp [cleanupSwapChainEvents, chainBuildEvents]

/-- Witness for C4's amended theorem on the concrete trace of a rebuild
with an immediately non-zero window size. -/
theorem c4_witness :
    OccursBefore .deviceWaitIdle .destroySwapchainCurrent
      [.getFramebufferSize, .deviceWaitIdle, .destroyFramebuffers,
       .freeCommandBuffers, .destroyPipeline, .destroyPipelineLayout,
       .destroyRenderPass, .destroyImageViews, .destroySwapchainOld,
       .destroySwapchainCurrent, .createSwapchain, .createImageViews,
       .createRenderPass, .createGraphicsPipeline, .createFramebuffers,
       .createCommandBuffers]
    ∧ OccursBefore .destroySwapchainCurrent .createSwapchain
      [.getFramebufferSize, .deviceWaitIdle, .destroyFramebuffers,
       .freeCommandBuffers, .destroyPipeline, .destroyPipelineLayout,
       .destroyRenderPass, .destroyImageViews, .destroySwapchainOld,
       .destroySwapchainCurrent, .createSwapchain, .createImageViews,
       .createRenderPass, .createGraphicsPipeline, .createFramebuffers,
       .createCommandBuffers] :=
  c4_destroy_before_create [(800, 600)] _ rfl

theorem minimiseWaitLoop_none_of_all_zero (obs : List (Nat × Nat)) :
    ∀ o : Nat × Nat, (o.1 = 0 ∨ o.2 = 0) →
    (∀ p ∈ obs, p.1 = 0 ∨ p.2 = 0) →
    minimiseWaitLoop o obs = none := by
  induction obs with
  | nil =>
    intro o ho _
    obtain ⟨w, h⟩ := o
    simp only [minimiseWaitLoop]
    rw [if_pos ho]
  | cons p rest ih =>
    intro o ho hobs
    obtain ⟨w, h⟩ := o
    simp only [minimiseWaitLoop]
    rw [if_pos ho,
      ih p (hobs p (List.mem_cons_self p rest))
        (fun q hq => hobs q (List.mem_cons_of_mem p hq))]
    rfl

theorem minimiseWaitLoop_only_polls (obs : List (Nat × Nat)) :
    ∀ (o : Nat × Nat) (tr : List SwapEvent),
    minimiseWaitLoop o obs = some tr →
    ∀ e ∈ tr, e = .getFramebufferSize ∨ e = .waitEvents := by
  induction obs with
  | nil =>
    intro o tr h e he
    obtain ⟨w, hh⟩ := o
    simp only [minimiseWaitLoop] at h
    by_cases hz : w = 0 ∨ hh = 0
    · rw [if_pos hz] at h; cases h
    · rw [if_neg hz] at h
      have htr := (Option.some.inj h).symm
      subst htr
      cases he
  | cons p rest ih =>
    intro o tr h e he
    obtain ⟨w, hh⟩ := o
    simp only [minimiseWaitLoop] at h
    by_cases hz : w = 0 ∨ hh = 0
    · rw [if_pos hz] at h
      rcases hml : minimiseWaitLoop p rest with _ | tr0
      · rw [hml] at h; cases h
      · rw [hml] at h
        have htr := (Option.some.inj h).symm
        subst htr
        simp only [List.mem_cons] at he
        rcases he with he | he | he
        · exact Or.inl he
        · exact Or.inr he
        · exact ih p tr0 hml e he
    · rw [if_neg hz] at h
      have htr := (Option.some.inj h).symm
      subst htr
      cases he

/-- C8: while the window's framebuffer size is zero in either dimension,
`RecreateSwapChain` performs no teardown and no construction: if every
size observation has a zero dimension the call never gets past the
polling loop (no calls beyond size queries and `glfwWaitEvents` occur),
and in every completed call the trace is a polling-only preamble — with
zero construction and zero teardown calls — followed by the
device-idle wait, the teardown, and the rebuild. -/
theorem c8_zero_area_blocks_rebuild (obs : List (Nat × Nat)) :
    ((∀ p ∈ obs, p.1 = 0 ∨ p.2 = 0) → recreateSwapChainEvents obs = none)
    ∧ (∀ tr, recreateSwapChainEvents obs = some tr →
      ∃ polls, (∀ e ∈ polls, isChainConstruction e = false
          ∧ isChainTeardown e = false)
        ∧ tr = polls ++ [.deviceWaitIdle]
            ++ cleanupSwapChainEvents ++ chainBuildEvents) := by
  constructor
  · intro hall
    rcases obs with _ | ⟨o, rest⟩
    · rfl
    · simp only [recreateSwapChainEvents]
      rw [minimiseWaitLoop_none_of_all_zero rest o
        (hall o (List.mem_cons_self o rest))
        (fun q hq => hall q (List.mem_cons_of_mem o hq))]
      rfl
  · intro tr h
    rcases obs with _ | ⟨o, rest⟩
    · cases h
    · simp only [recreateSwapChainEvents] at h
      rcases hml : minimiseWaitLoop o rest with _ | polls0
      · rw [hml] at h; cases h
      · rw [hml] at h
        have htr := (Option.some.inj h).symm
        refine ⟨.getFramebufferSize :: polls0, ?_, ?_⟩
        · intro e he
          simp only [List.mem_cons] at he
          rcases he with he | he
          · rw [he]; exact ⟨rfl, rfl⟩
          · rcases minimiseWaitLoop_only_polls rest o polls0 hml e he with
              he2 | he2 <;> rw [he2] <;> exact ⟨rfl, rfl⟩
        · rw [htr]

/-- Witness for C8: a single zero-height observation blocks the rebuild
(part one of the theorem applied at a concrete observation list). -/
theorem c8_witness : recreateSwapChainEvents [(800, 0)] = none :=
  (c8_zero_area_blocks_rebuild [(800, 0)]).1 (by decide)

theorem recordFamily_graphicsFamily (i : Nat) (ind : QueueFamilyIndices)
    (qf : QueueFamilyProps) :
    (recordFamily i ind qf).graphicsFamily
      = if qf.graphicsBit then some i else ind.graphicsFamily := by
  unfold recordFamily
  cases hp : qf.presentSupport <;> cases hg : qf.graphicsBit <;> simp

theorem recordFamily_presentFamily (i : Nat) (ind : QueueFamilyIndices)
    (qf : QueueFamilyProps) :
    (recordFamily i ind qf).presentFamily
      = if qf.presentSupport then some i else ind.presentFamily := by
  unfold recordFamily
  cases hp : qf.presentSupport <;> cases hg : qf.graphicsBit <;> simp

theorem findQueueFamiliesAux_graphics_isSome (qfs : List QueueFamilyProps) :
    ∀ (i : Nat) (ind : QueueFamilyIndices),
    (findQueueFamiliesAux i ind qfs).graphicsFamily.isSome
      = (ind.graphicsFamily.isSome || qfs.any fun f => f.graphicsBit) := by
  induction qfs with
  | nil => intro i ind; simp [findQueueFamiliesAux]
  | cons qf rest ih =>
    intro i ind
    simp only [findQueueFamiliesAux, List.any_cons]
    by_cases h2 : (recordFamily i ind qf).IsComplete = true
    · rw [if_pos h2]
      have hc := h2
      simp only [QueueFamilyIndices.IsComplete, Bool.and_eq_true] at hc
      rw [recordFamily_graphicsFamily] at hc ⊢
      cases hgb : qf.graphicsBit <;> rw [hgb] at hc <;> simp_all
    · rw [if_neg h2, ih (i + 1) (recordFamily i ind qf),
        recordFamily_graphicsFamily]
      cases hgb : qf.graphicsBit <;> simp

theorem findQueueFamiliesAux_present_isSome (qfs : List QueueFamilyProps) :
    ∀ (i : Nat) (ind : QueueFamilyIndices),
    (findQueueFamiliesAux i ind qfs).presentFamily.isSome
      = (ind.presentFamily.isSome || qfs.any fun f => f.presentSupport) := by
  induction qfs with
  | nil => intro i ind; simp [findQueueFamiliesAux]
  | cons qf rest ih =>
    intro i ind
    simp only [findQueueFamiliesAux, List.any_cons]
    by_cases h2 : (recordFamily i ind qf).IsComplete = true
    · rw [if_pos h2]
      have hc := h2
      simp only [QueueFamilyIndices.IsComplete, Bool.and_eq_true] at hc
      rw [recordFamily_presentFamily] at hc ⊢
      cases hpb : qf.presentSupport <;> rw [hpb] at hc <;> simp_all
    · rw [if_neg h2, ih (i + 1) (recordFamily i ind qf),
        recordFamily_presentFamily]
      cases hpb : qf.presentSupport <;> simp

theorem findQueueFamiliesAux_graphics_sound (qfs : List QueueFamilyProps) :
    ∀ (i : Nat) (ind : QueueFamilyIndices) (g : Nat),
    (findQueueFamiliesAux i ind qfs).graphicsFamily = some g →
    ind.graphicsFamily = some g
      ∨ (i ≤ g ∧ g - i < qfs.length
          ∧ (qfs.getD (g - i) ⟨false, false⟩).graphicsBit = true) := by
  induction qfs with
  | nil =>
    intro i ind g h
    exact Or.inl h
  | cons qf rest ih =>
    intro i ind g h
    simp only [findQueueFamiliesAux] at h
    by_cases h2 : (recordFamily i ind qf).IsComplete = true
    · rw [if_pos h2, recordFamily_graphicsFamily] at h
      cases hgb : qf.graphicsBit <;> rw [hgb] at h
      · exact Or.inl (by simpa using h)
      · have hg : g = i := by simpa using (Option.some.inj (by simpa using h)).symm
        refine Or.inr ⟨by omega, by simp [hg], ?_⟩
        simp [hg, hgb]
    · rw [if_neg h2] at h
      rcases ih (i + 1) (recordFamily i ind qf) g h with h3 | ⟨h3, h4, h5⟩
      · rw [recordFamily_graphicsFamily] at h3
        cases hgb : qf.graphicsBit <;> rw [hgb] at h3
        · exact Or.inl (by simpa using h3)
        · have hg : g = i := by simpa using (Option.some.inj (by simpa using h3)).symm
          refine Or.inr ⟨by omega, by simp [hg], ?_⟩
          simp [hg, hgb]
      · refine Or.inr ⟨by omega, by simp; omega, ?_⟩
        have he : g - i = (g - (i + 1)) + 1 := by omega
        rw [he, List.getD_cons_succ]
        exact h5

theorem findQueueFamiliesAux_present_sound (qfs : List QueueFamilyProps) :
    ∀ (i : Nat) (ind : QueueFamilyIndices) (p : Nat),
    (findQueueFamiliesAux i ind qfs).presentFamily = some p →
    ind.presentFamily = some p
      ∨ (i ≤ p ∧ p - i < qfs.length
          ∧ (qfs.getD (p - i) ⟨false, false⟩).presentSupport = true) := by
  induction qfs with
  | nil =>
    intro i ind p h
    exact Or.inl h
  | cons qf rest ih =>
    intro i ind p h
    simp only [findQueueFamiliesAux] at h
    by_cases h2 : (recordFamily i ind qf).IsComplete = true
    · rw [if_pos h2, recordFamily_presentFamily] at h
      cases hpb : qf.presentSupport <;> rw [hpb] at h
      · exact Or.inl (by simpa using h)
      · have hp : p = i := by simpa using (Option.some.inj (by simpa using h)).symm
        refine Or.inr ⟨by omega, by simp [hp], ?_⟩
        simp [hp, hpb]
    · rw [if_neg h2] at h
      rcases ih (i + 1) (recordFamily i ind qf) p h with h3 | ⟨h3, h4, h5⟩
      · rw [recordFamily_presentFamily] at h3
        cases hpb : qf.presentSupport <;> rw [hpb] at h3
        · exact Or.inl (by simpa using h3)
        · have hp : p = i := by simpa using (Option.some.inj (by simpa using h3)).symm
          refine Or.inr ⟨by omega, by simp [hp], ?_⟩
          simp [hp, hpb]
      · refine Or.inr ⟨by omega, by simp; omega, ?_⟩
        have he : p - i = (p - (i + 1)) + 1 := by omega
        rw [he, List.getD_cons_succ]
        exact h5

theorem findQueueFamiliesAux_stops (qfs : List QueueFamilyProps) :
    ∀ (qfs2 : List QueueFamilyProps) (i : Nat) (ind : QueueFamilyIndices),
    ind.IsComplete = false →
    (findQueueFamiliesAux i ind qfs).IsComplete = true →
    findQueueFamiliesAux i ind (qfs ++ qfs2)
      = findQueueFamiliesAux i ind qfs := by
  induction qfs with
  | nil =>
    intro qfs2 i ind hinc hc
    simp only [findQueueFamiliesAux] at hc
    rw [hinc] at hc
    cases hc
  | cons qf rest ih =>
    intro qfs2 i ind hinc hc
    simp only [findQueueFamiliesAux] at hc
    simp only [List.cons_append, findQueueFamiliesAux]
    by_cases h2 : (recordFamily i ind qf).IsComplete = true
    · rw [if_pos h2, if_pos h2]
    · rw [if_neg h2] at hc
      rw [if_neg h2, if_neg h2]
      exact ih qfs2 (i + 1) (recordFamily i ind qf)
        (Bool.eq_false_iff.mpr h2) hc

/-- C5 (counterexample to the claim as stated): with family 0 supporting
graphics only and family 1 supporting both graphics and presentation,
`FindQueueFamilies` records `graphicsFamily = 1` — family 1 overwrites
the earlier record — although the FIRST family supporting graphics is
family 0 (`findIdx` returns 0). -/
theorem c5_counterexample :
    (findQueueFamilies [⟨true, false⟩, ⟨true, true⟩]).graphicsFamily
      ≠ some (([(⟨true, false⟩ : QueueFamilyProps),
          ⟨true, true⟩]).findIdx fun f => f.graphicsBit)
    ∧ findQueueFamilies [⟨true, false⟩, ⟨true, true⟩]
      = { graphicsFamily := some 1, presentFamily := some 1 } := by
  decide

/-- C5 (amended): `FindQueueFamilies` scans the queue families in index
order and records, for each role, A supporting family index — the most
recently scanned one, which need not be the first (they may coincide);
once both roles are resolved the remaining families are not scanned
(appending further families leaves the result unchanged); resolution
remains incomplete exactly when one of the two roles has no supporting
family. -/
theorem c5_queue_family_resolution :
    (∀ qfs : List QueueFamilyProps,
      ((findQueueFamilies qfs).IsComplete = true ↔
        (∃ f ∈ qfs, f.graphicsBit = true)
          ∧ (∃ f ∈ qfs, f.presentSupport = true)))
    ∧ (∀ qfs g, (findQueueFamilies qfs).graphicsFamily = some g →
        g < qfs.length ∧ (qfs.getD g ⟨false, false⟩).graphicsBit = true)
    ∧ (∀ qfs p, (findQueueFamilies qfs).presentFamily = some p →
        p < qfs.length ∧ (qfs.getD p ⟨false, false⟩).presentSupport = true)
    ∧ (∀ qfs qfs2 : List QueueFamilyProps,
        (findQueueFamilies qfs).IsComplete = true →
        findQueueFamilies (qfs ++ qfs2) = findQueueFamilies qfs) := by
  refine ⟨?_, ?_, ?_, ?_⟩
  · intro qfs
    unfold findQueueFamilies
    simp [QueueFamilyIndices.IsComplete,
      findQueueFamiliesAux_graphics_isSome qfs 0 {},
      findQueueFamiliesAux_present_isSome qfs 0 {},
      List.any_eq_true]
  · intro qfs g h
    rcases findQueueFamiliesAux_graphics_sound qfs 0 {} g h with h1 | ⟨_, h2, h3⟩
    · cases h1
    · rw [Nat.sub_zero] at h2 h3
      exact ⟨h2, h3⟩
  · intro qfs p h
    rcases findQueueFamiliesAux_present_sound qfs 0 {} p h with h1 | ⟨_, h2, h3⟩
    · cases h1
    · rw [Nat.sub_zero] at h2 h3
      exact ⟨h2, h3⟩
  · intro qfs qfs2 hc
    exact findQueueFamiliesAux_stops qfs qfs2 0 {} rfl hc

/-- Witness for C5's amended theorem on a concrete family list: a family
satisfying both roles resolves immediately and further families do not
change the result. -/
theorem c5_witness :
    findQueueFamilies ([⟨true, true⟩] ++ [⟨false, false⟩])
      = findQueueFamilies [⟨true, true⟩] :=
  c5_queue_family_resolution.2.2.2 [⟨true, true⟩] [⟨false, false⟩]
    (by decide)

theorem pickBest_mem (rest : List PhysicalDevice) :
    ∀ d : PhysicalDevice,
    rest.foldl
        (fun acc d2 => if rateDevice acc ≤ rateDevice d2 then d2 else acc) d
      ∈ d :: rest := by
  induction rest with
  | nil => intro d; simp
  | cons x xs ih =>
    intro d
    simp only [List.foldl_cons]
    by_cases h : rateDevice d ≤ rateDevice x
    · rw [if_pos h]
      have hm := ih x
      simp only [List.mem_cons] at hm ⊢
      tauto
    · rw [if_neg h]
      have hm := ih d
      simp only [List.mem_cons] at hm ⊢
      tauto

theorem pickBest_ge (rest : List PhysicalDevice) :
    ∀ d : PhysicalDevice, ∀ x ∈ d :: rest,
    rateDevice x ≤ rateDevice (rest.foldl
      (fun acc d2 => if rateDevice acc ≤ rateDevice d2 then d2 else acc) d) := by
  induction rest with
  | nil =>
    intro d x hx
    simp only [List.mem_cons, List.not_mem_nil, or_false] at hx
    subst hx
    exact le_refl _
  | cons y ys ih =>
    intro d x hx
    simp only [List.foldl_cons]
    by_cases h : rateDevice d ≤ rateDevice y
    · rw [if_pos h]
      simp only [List.mem_cons] at hx
      rcases hx with hx | hx | hx
      · exact le_trans (hx ▸ h) (ih y y (List.mem_cons_self y ys))
      · exact ih y x (hx ▸ List.mem_cons_self y ys)
      · exact ih y x (List.mem_cons_of_mem y hx)
    · rw [if_neg h]
      simp only [List.mem_cons] at hx
      rcases hx with hx | hx | hx
      · exact ih d x (hx ▸ List.mem_cons_self d ys)
      · exact le_trans (hx ▸ Nat.le_of_not_le h)
          (ih d d (List.mem_cons_self d ys))
      · exact ih d x (List.mem_cons_of_mem d hx)

/-- C6: a usable device (geometry shader present and suitable) scores
its `maxImageDimension2D` plus a bonus of 1000 exactly when it is a
discrete GPU, an unusable device scores 0; `PickPhysicalDevice` returns
a device of maximal score and fails exactly when no device scores above
0; in particular, the integrated device with `maxDim = 4096`
(score 4096) is selected over the discrete device with `maxDim = 2048`
(score 3048). -/
theorem c6_device_scoring_and_selection :
    (∀ d : PhysicalDevice, d.geometryShader = true →
      deviceSuitable d = true →
      rateDevice d
        = (if d.isDiscreteGpu then 1000 else 0) + d.maxImageDimension2D)
    ∧ (∀ d : PhysicalDevice,
      d.geometryShader = false ∨ deviceSuitable d = false →
      rateDevice d = 0)
    ∧ (∀ (devices : List PhysicalDevice) (d : PhysicalDevice),
      pickPhysicalDevice devices = .ok d →
      d ∈ devices ∧ 0 < rateDevice d
        ∧ ∀ d2 ∈ devices, rateDevice d2 ≤ rateDevice d)
    ∧ (∀ devices : List PhysicalDevice,
      (∃ e, pickPhysicalDevice devices = .error e) ↔
        ∀ d ∈ devices, rateDevice d = 0)
    ∧ pickPhysicalDevice [integratedDevice4096, discreteDevice2048]
        = .ok integratedDevice4096
    ∧ rateDevice integratedDevice4096 = 4096
    ∧ rateDevice discreteDevice2048 = 3048 := by
  refine ⟨?_, ?_, ?_, ?_, rfl, by decide, by decide⟩
  · intro d hgs hsuit
    unfold rateDevice
    rw [if_neg (by simp [hgs, hsuit])]
  · intro d h
    unfold rateDevice
    rcases h with h | h <;> rw [if_pos (by simp [h])]
  · intro devices d h
    rcases devices with _ | ⟨d0, rest⟩
    · cases h
    · simp only [pickPhysicalDevice] at h
      by_cases hpos : rateDevice (rest.foldl
          (fun acc d2 => if rateDevice acc ≤ rateDevice d2 then d2 else acc)
          d0) > 0
      · rw [if_pos hpos] at h
        have hd := Except.ok.inj h
        subst hd
        exact ⟨pickBest_mem rest d0, hpos, fun d2 h2 => pickBest_ge rest d0 d2 h2⟩
      · rw [if_neg hpos] at h
        cases h
  · intro devices
    rcases devices with _ | ⟨d0, rest⟩
    · exact ⟨fun _ => by simp, fun _ => ⟨_, rfl⟩⟩
    · simp only [pickPhysicalDevice]
      constructor
      · rintro ⟨e, he⟩ d hd
        by_cases hpos : rateDevice (rest.foldl
            (fun acc d2 => if rateDevice acc ≤ rateDevice d2 then d2 else acc)
            d0) > 0
        · rw [if_pos hpos] at he; cases he
        · have hb := pickBest_ge rest d0 d hd
          omega
      · intro hall
        refine ⟨"Failed to find suitable GPU!", ?_⟩
        have hm := pickBest_mem rest d0
        rw [if_neg (by rw [hall _ hm]; omega)]

/-- Witness for C6's selection property applied to the spec's concrete
two-device scenario. -/
theorem c6_witness :
    integratedDevice4096 ∈ [integratedDevice4096, discreteDevice2048]
    ∧ 0 < rateDevice integratedDevice4096
    ∧ ∀ d2 ∈ [integratedDevice4096, discreteDevice2048],
        rateDevice d2 ≤ rateDevice integratedDevice4096 :=
  c6_device_scoring_and_selection.2.2.1
    [integratedDevice4096, discreteDevice2048] integratedDevice4096 rfl

theorem flightInv_step {s t : FlightState} (hs : FlightInv s)
    (hst : DrawStep s t) : FlightInv t := by
  obtain ⟨h1, h2, h3⟩ := hs
  cases hst with
  | gpuComplete f hf hw =>
    refine ⟨?_, ?_, ?_⟩
    · intro g
      dsimp only
      split
      · exact le_trans (Nat.sub_le _ _) (h1 g)
      · exact h1 g
    · intro g hg
      dsimp only at hg ⊢
      by_cases hgf : g = f
      · rw [if_pos hgf]
        have := h1 g
        omega
      · rw [if_neg hgf] at hg ⊢
        exact h2 g hg
    · intro idx hph
      dsimp only at hph ⊢
      by_cases hcf : s.sched.currentFrame = f
      · rw [if_pos hcf]
      · rw [if_neg hcf]
        exact h3 idx hph
  | acquireOutOfDate newCount hphase hwait =>
    exact ⟨h1, h2, h3⟩
  | acquireFatal r hphase hwait hr =>
    exact ⟨h1, h2, fun idx hph => nomatch hph⟩
  | acquireOk idx hphase hwait =>
    exact ⟨h1, h2, fun _ _ => hwait⟩
  | submitOk idx hphase hwait =>
    have key : s.fenceSignaled s.sched.currentFrame = true := h3 idx hphase
    have hout : s.outstandingWork s.sched.currentFrame = 0 := h2 _ key
    refine ⟨?_, ?_, fun idx2 hph => nomatch hph⟩
    · intro g
      dsimp only
      by_cases hgc : g = s.sched.currentFrame
      · rw [if_pos hgc, hgc, hout]
      · rw [if_neg hgc]
        exact h1 g
    · intro g hg
      dsimp only at hg ⊢
      by_cases hgc : g = s.sched.currentFrame
      · rw [if_pos hgc] at hg
        cases hg
      · rw [if_neg hgc] at hg ⊢
        exact h2 g hg
  | submitFatal idx hphase hwait =>
    refine ⟨h1, ?_, fun idx2 hph => nomatch hph⟩
    · intro g hg
      dsimp only at hg ⊢
      by_cases hgc : g = s.sched.currentFrame
      · rw [if_pos hgc] at hg
        cases hg
      · rw [if_neg hgc] at hg
        exact h2 g hg
  | presentRebuild idx newCount hphase hwait =>
    exact ⟨h1, h2, fun _ hph => nomatch hph⟩
  | presentFatal idx hphase hwait =>
    exact ⟨h1, h2, fun _ hph => nomatch hph⟩
  | presentOk idx hphase hwait =>
    exact ⟨h1, h2, fun _ hph => nomatch hph⟩

theorem reachableFlight_inv {s : FlightState} (h : ReachableFlight s) :
    FlightInv s := by
  induction h with
  | init n =>
    exact ⟨fun f => Nat.zero_le 1, fun f _ => rfl, fun idx hph => rfl⟩
  | step hr hst ih => exact flightInv_step ih hst

/-- C1: in every execution of the frame loop (any interleaving of
`DrawFrame` phases and GPU completions from the initial state), the
number of outstanding — submitted with an unsignaled fence, not yet
completed — frames never exceeds `MAX_FRAMES_IN_FLIGHT`: `DrawFrame`
blocks on slot `f`'s fence before doing any work for slot `f`
(hypothesis `hwait` of the acquire steps) and resets that fence only
immediately before the submission that re-signals it (the `submitOk`
step). -/
theorem c1_at_most_max_frames_outstanding (s : FlightState)
    (h : ReachableFlight s) :
    totalOutstanding s ≤ MAX_FRAMES_IN_FLIGHT := by
  obtain ⟨h1, -, -⟩ := reachableFlight_inv h
  have e : totalOutstanding s
      = s.outstandingWork 0 + s.outstandingWork 1 := by
    simp [totalOutstanding, MAX_FRAMES_IN_FLIGHT, Finset.sum_range_succ]
  have b0 := h1 0
  have b1 := h1 1
  rw [e]
  simp only [MAX_FRAMES_IN_FLIGHT]
  omega

/-- Witness for C1 at the initial state of a 3-image chain. -/
theorem c1_witness :
    totalOutstanding (initialFlightState 3) ≤ MAX_FRAMES_IN_FLIGHT :=
  c1_at_most_max_frames_outstanding (initialFlightState 3)
    (ReachableFlight.init 3)
